import Mathlib

/-!
Formal model of the core of the bee-productivity-analyzer repository.

The Python sources are embedded shallowly:
* dictionaries keyed by user/analysis id become association lists
  (`List (String × _)`) with `alookup` / `aset` mirroring `dict` access,
* `datetime` instants become either plain `Int` epoch seconds or, where the
  calendar month matters, the record `DT` carrying the epoch second together
  with the month of that instant,
* floating point numbers become `ℚ`; the IEEE special values produced by the
  source (`inf`, `-inf`, `nan` from divisions) are made explicit through
  `FloatVal`, and the two places where the source computes a standard
  deviation (an irrational square root) carry the exact pair
  (sample variance, mean) from which the float is determined, with the
  comparisons the source performs on it encoded exactly,
* Python's stable `list.sort(key=...)` becomes the structural stable
  insertion sort `sort_by_key`,
* socket `emit` notifications are transport-layer effects outside the stored
  state and are not part of the model.
-/

/-- Association-list lookup, modelling Python `dict.__getitem__` / `dict.get`. -/
def alookup {α : Type} : List (String × α) → String → Option α
  | [], _ => none
  | (k1, v) :: rest, k => if k1 = k then some v else alookup rest k

/-- Association-list update, modelling Python `dict.__setitem__` (replace or append). -/
def aset {α : Type} : List (String × α) → String → α → List (String × α)
  | [], k, v => [(k, v)]
  | (k1, v1) :: rest, k, v =>
      if k1 = k then (k, v) :: rest else (k1, v1) :: aset rest k v

theorem alookup_aset_self {α : Type} (m : List (String × α)) (k : String) (v : α) :
    alookup (aset m k v) k = some v := by
  induction m with
  | nil => simp [aset, alookup]
  | cons hd tl ih =>
      obtain ⟨k1, v1⟩ := hd
      by_cases h : k1 = k
      · simp [aset, alookup, h]
      · simp [aset, alookup, h, ih]

theorem alookup_aset_ne {α : Type} (m : List (String × α)) (k k2 : String) (v : α)
    (h : k2 ≠ k) : alookup (aset m k v) k2 = alookup m k2 := by
  induction m with
  | nil => simp [aset, alookup, Ne.symm h]
  | cons hd tl ih =>
      obtain ⟨k1, v1⟩ := hd
      by_cases hk : k1 = k
      · subst hk
        simp [aset, alookup, Ne.symm h]
      · simp [aset, alookup, hk, ih]

/-- Stable insertion of `x` into `l` by a `Nat` key: `x` is placed before the
first element whose key is not smaller, so elements with equal keys keep
their original relative order. -/
def insert_by_key {α : Type} (key : α → Nat) (x : α) : List α → List α
  | [] => [x]
  | y :: ys => if key y < key x then y :: insert_by_key key x ys else x :: y :: ys

/-- Stable sort by a `Nat` key; the model of Python's stable `list.sort(key=...)`. -/
def sort_by_key {α : Type} (key : α → Nat) : List α → List α
  | [] => []
  | x :: xs => insert_by_key key x (sort_by_key key xs)

theorem insert_by_key_perm {α : Type} (key : α → Nat) (x : α) (l : List α) :
    (insert_by_key key x l).Perm (x :: l) := by
  induction l with
  | nil => simp [insert_by_key]
  | cons y ys ih =>
      by_cases h : key y < key x
      · simp only [insert_by_key, if_pos h]
        exact (ih.cons y).trans (List.Perm.swap x y ys)
      · simp [insert_by_key, if_neg h]

theorem sort_by_key_perm {α : Type} (key : α → Nat) (l : List α) :
    (sort_by_key key l).Perm l := by
  induction l with
  | nil => simp [sort_by_key]
  | cons x xs ih =>
      exact (insert_by_key_perm key x (sort_by_key key xs)).trans (ih.cons x)

theorem mem_insert_by_key {α : Type} (key : α → Nat) (x a : α) (l : List α)
    (h : a ∈ insert_by_key key x l) : a = x ∨ a ∈ l := by
  have h2 := (insert_by_key_perm key x l).mem_iff.mp h
  simpa using h2

theorem insert_by_key_sorted {α : Type} (key : α → Nat) (x : α) (l : List α)
    (h : List.Pairwise (fun a b => key a ≤ key b) l) :
    List.Pairwise (fun a b => key a ≤ key b) (insert_by_key key x l) := by
  induction l with
  | nil => simp [insert_by_key]
  | cons y ys ih =>
      obtain ⟨hy, hys⟩ := List.pairwise_cons.mp h
      by_cases hlt : key y < key x
      · simp only [insert_by_key, if_pos hlt]
        refine List.pairwise_cons.mpr ⟨?_, ih hys⟩
        intro a ha
        rcases mem_insert_by_key key x a ys ha with h1 | h2
        · subst h1
          exact Nat.le_of_lt hlt
        · exact hy a h2
      · simp only [insert_by_key, if_neg hlt]
        refine List.pairwise_cons.mpr ⟨?_, List.pairwise_cons.mpr ⟨hy, hys⟩⟩
        intro a ha
        rcases List.mem_cons.mp ha with h1 | h2
        · subst h1
          exact Nat.le_of_not_lt hlt
        · exact le_trans (Nat.le_of_not_lt hlt) (hy a h2)

theorem sort_by_key_sorted {α : Type} (key : α → Nat) (l : List α) :
    List.Pairwise (fun a b => key a ≤ key b) (sort_by_key key l) := by
  induction l with
  | nil => simp [sort_by_key]
  | cons x xs ih => exact insert_by_key_sorted key x (sort_by_key key xs) ih

/-- Lower-casing of a string as a character list, modelling Python `str.lower`
on the ASCII strings this codebase uses. -/
def lowerChars (s : String) : List Char := s.data.map Char.toLower

/-- List-of-characters version of `String.startsWith`. -/
def startsWithChars : List Char → List Char → Bool
  | [], _ => true
  | _ :: _, [] => false
  | a :: xs, b :: ys => a = b && startsWithChars xs ys

/-- Substring test on character lists, modelling Python's `needle in haystack`. -/
def hasSubChars (needle : List Char) : List Char → Bool
  | [] => startsWithChars needle []
  | c :: rest => startsWithChars needle (c :: rest) || hasSubChars needle rest

/-- Models `keyword in text.lower()` for an (already lower-case) keyword. -/
def containsKw (text kw : String) : Bool := hasSubChars kw.data (lowerChars text)

/-- Models `any(keyword in text.lower() for keyword in keywords)`. -/
def containsAnyKw (text : String) (kws : List String) : Bool :=
  kws.any (fun k => containsKw text k)

/-!
## RateLimiter — src/app/utils/rate_limiter.py

`requests` is a `defaultdict(list)` of per-user request timestamps; a missing
user reads as `[]`. Time is `Int` epoch seconds; `datetime.now()` is passed in
explicitly as `current_time`. `is_allowed` first writes the pruned list back,
then either rejects (length reached `max_requests`) or appends the new
timestamp.
-/

structure RateLimiter where
  max_requests : Nat
  time_window : Int
deriving DecidableEq

/-- Per-user stored request timestamps (the `requests` defaultdict). -/
abbrev RLState := List (String × List Int)

/-- Read of `self.requests[user_id]` under the defaultdict semantics. -/
def rl_get (st : RLState) (user_id : String) : List Int := (alookup st user_id).getD []

/-- Pruned per-user sequence: the list comprehension keeping only request
times strictly younger than the window. -/
def pruned_of (rl : RateLimiter) (st : RLState) (user_id : String)
    (current_time : Int) : List Int :=
  (rl_get st user_id).filter
    (fun req_time => decide (current_time - req_time < rl.time_window))

/-- Model of `RateLimiter.is_allowed`: prune entries older than the window,
store the pruned list, reject when `max_requests` many remain, otherwise
append the current time and allow. Returns the decision and the new state. -/
def is_allowed (rl : RateLimiter) (st : RLState) (user_id : String)
    (current_time : Int) : Bool × RLState :=
  let pruned := pruned_of rl st user_id current_time
  let st1 := aset st user_id pruned
  if rl.max_requests ≤ pruned.length then (false, st1)
  else (true, aset st1 user_id (pruned ++ [current_time]))

theorem is_allowed_reject_eq (rl : RateLimiter) (st : RLState) (user_id : String)
    (current_time : Int) (h : rl.max_requests ≤ (pruned_of rl st user_id current_time).length) :
    is_allowed rl st user_id current_time =
      (false, aset st user_id (pruned_of rl st user_id current_time)) := by
  simp only [is_allowed]
  rw [if_pos h]

theorem is_allowed_allow_eq (rl : RateLimiter) (st : RLState) (user_id : String)
    (current_time : Int) (h : (pruned_of rl st user_id current_time).length < rl.max_requests) :
    is_allowed rl st user_id current_time =
      (true, aset (aset st user_id (pruned_of rl st user_id current_time)) user_id
        (pruned_of rl st user_id current_time ++ [current_time])) := by
  simp only [is_allowed]
  rw [if_neg (Nat.not_le_of_lt h)]

theorem rl_get_aset_self (st : RLState) (u : String) (l : List Int) :
    rl_get (aset st u l) u = l := by
  simp [rl_get, alookup_aset_self]

theorem rl_get_aset_ne (st : RLState) (u v : String) (l : List Int) (h : v ≠ u) :
    rl_get (aset st u l) v = rl_get st v := by
  simp [rl_get, alookup_aset_ne st u v l h]

/-- Supporting invariant: `is_allowed` keeps every stored sequence no longer
than `max_requests`, so the hypothesis of the rejection frame theorem holds in
every state the limiter itself can reach. -/
theorem is_allowed_preserves_bound (rl : RateLimiter) (st : RLState)
    (user_id : String) (current_time : Int)
    (h : ∀ v, (rl_get st v).length ≤ rl.max_requests) :
    ∀ v, (rl_get (is_allowed rl st user_id current_time).2 v).length ≤ rl.max_requests := by
  intro v
  by_cases hb : rl.max_requests ≤ (pruned_of rl st user_id current_time).length
  · rw [is_allowed_reject_eq rl st user_id current_time hb]
    by_cases hv : v = user_id
    · subst hv
      rw [rl_get_aset_self]
      exact le_trans (List.length_filter_le _ _) (h v)
    · rw [rl_get_aset_ne st user_id v _ hv]
      exact h v
  · rw [is_allowed_allow_eq rl st user_id current_time (Nat.lt_of_not_le hb)]
    by_cases hv : v = user_id
    · subst hv
      rw [rl_get_aset_self]
      simpa using Nat.lt_of_not_le hb
    · rw [rl_get_aset_ne _ user_id v _ hv, rl_get_aset_ne st user_id v _ hv]
      exact h v

/-- C7: with `max_requests = 3` and a 60-second window, for any user three
calls inside the window are allowed, a fourth inside the same window is
denied, and a later call made at least 61 seconds after the last allowed one
is allowed again (simulated clock, starting from the empty state). -/
theorem rate_limiter_three_then_deny_then_allow (user_id : String)
    (t1 t2 t3 t4 t5 : Int) (h12 : t1 ≤ t2) (h23 : t2 ≤ t3) (h34 : t3 ≤ t4)
    (hwin : t4 - t1 < 60) (h5 : t3 + 61 ≤ t5) :
    let rl : RateLimiter := { max_requests := 3, time_window := 60 }
    let r1 := is_allowed rl [] user_id t1
    let r2 := is_allowed rl r1.2 user_id t2
    let r3 := is_allowed rl r2.2 user_id t3
    let r4 := is_allowed rl r3.2 user_id t4
    let r5 := is_allowed rl r4.2 user_id t5
    r1.1 = true ∧ r2.1 = true ∧ r3.1 = true ∧ r4.1 = false ∧ r5.1 = true := by
  intro rl r1 r2 r3 r4 r5
  have k21 : t2 - t1 < 60 := by omega
  have k31 : t3 - t1 < 60 := by omega
  have k32 : t3 - t2 < 60 := by omega
  have k41 : t4 - t1 < 60 := by omega
  have k42 : t4 - t2 < 60 := by omega
  have k43 : t4 - t3 < 60 := by omega
  have k51 : ¬ (t5 - t1 < 60) := by omega
  have k52 : ¬ (t5 - t2 < 60) := by omega
  have k53 : ¬ (t5 - t3 < 60) := by omega
  have e1 : r1 = (true, [(user_id, [t1])]) := by
    simp [r1, is_allowed, pruned_of, rl_get, alookup, aset, rl]
  have e2 : r2 = (true, [(user_id, [t1, t2])]) := by
    rw [show r2 = is_allowed rl r1.2 user_id t2 from rfl, e1]
    simp [is_allowed, pruned_of, rl_get, alookup, aset, rl, List.filter, k21]
  have e3 : r3 = (true, [(user_id, [t1, t2, t3])]) := by
    rw [show r3 = is_allowed rl r2.2 user_id t3 from rfl, e2]
    simp [is_allowed, pruned_of, rl_get, alookup, aset, rl, List.filter, k31, k32]
  have e4 : r4 = (false, [(user_id, [t1, t2, t3])]) := by
    rw [show r4 = is_allowed rl r3.2 user_id t4 from rfl, e3]
    simp [is_allowed, pruned_of, rl_get, alookup, aset, rl, List.filter, k41, k42, k43]
  have e5 : r5 = (true, [(user_id, [t5])]) := by
    rw [show r5 = is_allowed rl r4.2 user_id t5 from rfl, e4]
    simp [is_allowed, pruned_of, rl_get, alookup, aset, rl, List.filter, k51, k52, k53]
  exact ⟨by rw [e1], by rw [e2], by rw [e3], by rw [e4], by rw [e5]⟩

/-- Witness for C7 at user "u" and times 0, 10, 20, 30, 81. -/
theorem rate_limiter_three_then_deny_then_allow_witness :
    let rl : RateLimiter := { max_requests := 3, time_window := 60 }
    let r1 := is_allowed rl [] "u" 0
    let r2 := is_allowed rl r1.2 "u" 10
    let r3 := is_allowed rl r2.2 "u" 20
    let r4 := is_allowed rl r3.2 "u" 30
    let r5 := is_allowed rl r4.2 "u" 81
    r1.1 = true ∧ r2.1 = true ∧ r3.1 = true ∧ r4.1 = false ∧ r5.1 = true :=
  rate_limiter_three_then_deny_then_allow "u" 0 10 20 30 81
    (by decide) (by decide) (by decide) (by decide) (by decide)

/-- C8: a rejected `is_allowed` call leaves the stored mapping exactly as it
was — nothing pruned away and nothing appended — provided the user's stored
sequence is within the `max_requests` bound, which `is_allowed` itself
maintains in every reachable state (`is_allowed_preserves_bound`). -/
theorem rate_limiter_reject_frame (rl : RateLimiter) (st : RLState)
    (user_id : String) (current_time : Int)
    (hinv : (rl_get st user_id).length ≤ rl.max_requests)
    (hrej : (is_allowed rl st user_id current_time).1 = false) :
    ∀ v, rl_get (is_allowed rl st user_id current_time).2 v = rl_get st v := by
  intro v
  by_cases hb : rl.max_requests ≤ (pruned_of rl st user_id current_time).length
  · have hsub : (pruned_of rl st user_id current_time).Sublist (rl_get st user_id) :=
      List.filter_sublist _
    have hlen : (pruned_of rl st user_id current_time).length = (rl_get st user_id).length :=
      Nat.le_antisymm (List.length_filter_le _ _) (le_trans hinv hb)
    have heq : pruned_of rl st user_id current_time = rl_get st user_id :=
      hsub.eq_of_length hlen
    rw [is_allowed_reject_eq rl st user_id current_time hb]
    by_cases hv : v = user_id
    · subst hv
      rw [rl_get_aset_self, heq]
    · exact rl_get_aset_ne st user_id v _ hv
  · rw [is_allowed_allow_eq rl st user_id current_time (Nat.lt_of_not_le hb)] at hrej
    cases hrej

/-- Witness for C8: user "u" holding three in-window timestamps, checked at
time 30 — the call is rejected and the stored sequence is untouched. -/
theorem rate_limiter_reject_frame_witness :
    (is_allowed { max_requests := 3, time_window := 60 } [("u", [0, 0, 0])] "u" 30).1 = false ∧
    rl_get (is_allowed { max_requests := 3, time_window := 60 } [("u", [0, 0, 0])] "u" 30).2 "u" =
      rl_get [("u", [0, 0, 0])] "u" :=
  ⟨by decide,
   rate_limiter_reject_frame { max_requests := 3, time_window := 60 }
     [("u", [0, 0, 0])] "u" 30 (by decide) (by decide) "u"⟩

/-!
## ProgressTracker — src/app/utils/progress_tracker.py

`progress_data` maps an analysis id to a job dictionary. The `results`
payload (a `Dict[str, Any]` in the source) is modelled as a `String`.
`emit` calls are transport notifications and not part of the stored state.
-/

structure ProgressJob where
  started_at : Int
  current_step : Int
  total_steps : Int
  status : String
  messages : List (Int × String × Int)
  completed_at : Option Int
  results : Option String
  error : Option String
deriving DecidableEq

abbrev ProgressState := List (String × ProgressJob)

/-- Model of `start_tracking`: (re)creates the job `in_progress` at step 0. -/
def start_tracking (st : ProgressState) (analysis_id : String) (total_steps : Int)
    (now : Int) : ProgressState :=
  aset st analysis_id
    { started_at := now, current_step := 0, total_steps := total_steps,
      status := "in_progress", messages := [], completed_at := none,
      results := none, error := none }

/-- Model of `update_progress`: if the id is tracked, set the step and append
the message; otherwise do nothing. -/
def update_progress (st : ProgressState) (analysis_id : String) (step : Int)
    (message : String) (now : Int) : ProgressState :=
  match alookup st analysis_id with
  | none => st
  | some d =>
      aset st analysis_id
        { d with current_step := step, messages := d.messages ++ [(step, message, now)] }

/-- Model of `complete_analysis`: if the id is tracked (whatever its status),
overwrite status to "completed" and store the results. -/
def complete_analysis (st : ProgressState) (analysis_id : String) (results : String)
    (now : Int) : ProgressState :=
  match alookup st analysis_id with
  | none => st
  | some d =>
      aset st analysis_id
        { d with status := "completed", completed_at := some now, results := some results }

/-- Model of `fail_analysis`: if the id is tracked (whatever its status),
overwrite status to "failed" and store the error. -/
def fail_analysis (st : ProgressState) (analysis_id : String) (error : String)
    (now : Int) : ProgressState :=
  match alookup st analysis_id with
  | none => st
  | some d =>
      aset st analysis_id
        { d with status := "failed", completed_at := some now, error := some error }

/-- Model of `get_progress` (`dict.get`). -/
def get_progress (st : ProgressState) (analysis_id : String) : Option ProgressJob :=
  alookup st analysis_id

/-- C1 counterexample: after `start_tracking("A", 3)` and
`complete_analysis("A", ...)`, a subsequent `fail_analysis("A", ...)` is NOT a
no-op — the job's status becomes "failed", not "completed". The source only
checks that the id exists, never that the job is already terminal. -/
theorem fail_after_complete_not_noop :
    (get_progress (fail_analysis (complete_analysis (start_tracking [] "A" 3 0) "A" "res" 1)
        "A" "boom" 2) "A").map ProgressJob.status = some "failed" ∧
    ¬ ((get_progress (fail_analysis (complete_analysis (start_tracking [] "A" 3 0) "A" "res" 1)
        "A" "boom" 2) "A").map ProgressJob.status = some "completed") := by
  constructor
  · rfl
  · decide

/-- C1 amended: terminal states are not protected. After `start_tracking` and
`complete_analysis`, a subsequent `fail_analysis` overwrites the status to
"failed" and records the error, while the stored results of the earlier
completion remain in place. -/
theorem fail_after_complete_overwrites (st : ProgressState) (A res err : String)
    (steps t0 t1 t2 : Int) :
    ∃ d, get_progress (fail_analysis (complete_analysis (start_tracking st A steps t0)
        A res t1) A err t2) A = some d ∧
      d.status = "failed" ∧ d.results = some res ∧ d.error = some err := by
  refine ⟨{ started_at := t0, current_step := 0, total_steps := steps,
            status := "failed", messages := [], completed_at := some t2,
            results := some res, error := some err }, ?_, rfl, rfl, rfl⟩
  simp [start_tracking, complete_analysis, fail_analysis, get_progress, alookup_aset_self]

/-- C10: for an analysis id that was never started, `update_progress`,
`complete_analysis` and `fail_analysis` are silent no-ops (the tracker state
is unchanged, no failure is signalled) and `get_progress` returns `none`. -/
theorem untracked_id_ops_noop (st : ProgressState) (analysis_id : String)
    (step : Int) (message results err : String) (t : Int)
    (h : alookup st analysis_id = none) :
    update_progress st analysis_id step message t = st ∧
    complete_analysis st analysis_id results t = st ∧
    fail_analysis st analysis_id err t = st ∧
    get_progress st analysis_id = none := by
  refine ⟨?_, ?_, ?_, ?_⟩ <;>
    simp [update_progress, complete_analysis, fail_analysis, get_progress, h]

/-- Witness for C10: a tracker holding only job "B"; operations on the never
started id "A" leave the state unchanged and `get_progress` yields `none`. -/
theorem untracked_id_ops_noop_witness :
    update_progress (start_tracking [] "B" 3 0) "A" 1 "m" 5 = start_tracking [] "B" 3 0 ∧
    complete_analysis (start_tracking [] "B" 3 0) "A" "r" 5 = start_tracking [] "B" 3 0 ∧
    fail_analysis (start_tracking [] "B" 3 0) "A" "e" 5 = start_tracking [] "B" 3 0 ∧
    get_progress (start_tracking [] "B" 3 0) "A" = none :=
  untracked_id_ops_noop (start_tracking [] "B" 3 0) "A" 1 "m" "r" "e" 5 (by decide)

/-!
## BeeTrendAnalyzer — src/app/models/trend_analyzer.py

Observations are the data dictionaries stored in `data_points`; the analyzer
reads the keys `timestamp`, `bee_count` and `honey_yield` (absent keys are
pandas `NaN`, hence `Option`). A `DT` is a clock instant: the epoch second
together with the calendar month of that instant (`df.index.month`).
-/

structure DT where
  t : Int
  month : Nat
deriving DecidableEq

structure Obs where
  timestamp : DT
  bee_count : Option ℚ
  honey_yield : Option ℚ
deriving DecidableEq

/-- Seconds per day, for the `timedelta(days=...)` arithmetic. -/
def dayS : Int := 86400

/-- Arithmetic mean (`Series.mean` over the non-NaN values). -/
def qmean (xs : List ℚ) : ℚ := xs.sum / xs.length

/-- Sample variance with `ddof = 1`, the square of `Series.std`; only used on
lists of length at least 2. -/
def qsampleVar (xs : List ℚ) : ℚ :=
  ((xs.map (fun x => (x - qmean xs) ^ 2)).sum) / ((xs.length : ℚ) - 1)

/-- Value of a float expression that the source produces by division: the
IEEE quotient is `inf`, `-inf` or `nan` when the divisor is zero. -/
inductive FloatVal where
  | nan
  | inf
  | ninf
  | val (q : ℚ)
deriving DecidableEq

/-- IEEE-style division producing a `FloatVal`. -/
def fdiv (a b : ℚ) : FloatVal :=
  if b = 0 then (if 0 < a then .inf else if a < 0 then .ninf else .nan)
  else .val (a / b)

/-- Model of `_get_trend_direction` on the float `change`: the two threshold
comparisons against `significant_change = 0.2`, with the usual IEEE outcomes
on the special values (`inf > 0.2`, `-inf < -0.2`, every `nan` comparison
false). -/
def get_trend_direction : FloatVal → String
  | .val c => if c > 1/5 then "increasing" else if c < -(1/5) then "decreasing" else "stable"
  | .inf => "increasing"
  | .ninf => "decreasing"
  | .nan => "stable"

/-- Model of `_calculate_consistency`: buckets `cv = std(ddof=1)/mean` at
0.1 / 0.2 / 0.3. Encoded exactly without square roots: for `mean > 0`,
`cv < θ` iff `var < θ² · mean²`; for `mean < 0` the quotient is ≤ 0, below
every threshold; for `mean = 0` the quotient is `inf` or `nan`, so every
comparison is false; a single value gives `std = nan`, likewise. -/
def calculate_consistency (vals : List ℚ) : String :=
  if vals.length ≤ 1 then "highly_variable"
  else if qmean vals < 0 then "very_consistent"
  else if qmean vals = 0 then "highly_variable"
  else if qsampleVar vals < 1/100 * (qmean vals) ^ 2 then "very_consistent"
  else if qsampleVar vals < 4/100 * (qmean vals) ^ 2 then "consistent"
  else if qsampleVar vals < 9/100 * (qmean vals) ^ 2 then "moderately_variable"
  else "highly_variable"

structure ActivityTrend where
  average_activity : Option ℚ
  activity_change : FloatVal
  trend_direction : String
  consistency : String
deriving DecidableEq

/-- Model of `_analyze_activity_trend`. `df.last('30D')` keeps the rows whose
timestamp is strictly later than the last row's timestamp minus 30 days; the
`bee_count` column exists iff any stored observation carries that key; the
endpoint values `iloc[0]` / `iloc[-1]` are the first and last restricted rows'
possibly-missing entries. -/
def analyze_activity_trend (data : List Obs) : Except String ActivityTrend :=
  let lastTs := ((data.getLast?).map (fun o => o.timestamp.t)).getD 0
  let recent := data.filter (fun o => decide (lastTs - 30 * dayS < o.timestamp.t))
  if data.any (fun o => o.bee_count.isSome) then
    let vals := recent.filterMap (fun o => o.bee_count)
    let change := match (recent.head?).bind (fun o => o.bee_count),
        (recent.getLast?).bind (fun o => o.bee_count) with
      | some f, some l => fdiv (l - f) f
      | _, _ => FloatVal.nan
    .ok { average_activity := if vals.isEmpty then none else some (qmean vals),
          activity_change := change,
          trend_direction := get_trend_direction change,
          consistency := calculate_consistency vals }
  else .error "No activity data available"

structure ProductivityTrend where
  average_yield : ℚ
  yield_change : FloatVal
  trend_direction : String
  comparison_to_optimal : String
deriving DecidableEq

/-- Optimal honey-yield range of a modern hive, from the knowledge base
(`productivity_metrics.honey_yield.optimal.modern_hive.range`). -/
def optimal_range_modern_hive : ℚ × ℚ := (15, 25)

/-- Model of `_compare_to_optimal` against the knowledge-base range. -/
def compare_to_optimal (value : ℚ) : String :=
  if optimal_range_modern_hive.2 ≤ value then "above_optimal"
  else if optimal_range_modern_hive.1 ≤ value then "optimal"
  else "below_optimal"

/-- Model of `_analyze_productivity_trend`: the `honey_yield` column must
exist and hold at least two non-NaN values (`dropna`), otherwise the error
dictionary is returned. -/
def analyze_productivity_trend (data : List Obs) : Except String ProductivityTrend :=
  if data.any (fun o => o.honey_yield.isSome) then
    let recent_yields := data.filterMap (fun o => o.honey_yield)
    if 2 ≤ recent_yields.length then
      let f := (recent_yields.head?).getD 0
      let l := (recent_yields.getLast?).getD 0
      let change := fdiv (l - f) f
      .ok { average_yield := qmean recent_yields,
            yield_change := change,
            trend_direction := get_trend_direction change,
            comparison_to_optimal := compare_to_optimal (qmean recent_yields) }
    else .error "No productivity data available"
  else .error "No productivity data available"

/-- Distinct calendar months of the stored observations in ascending order
(the groupby keys of `df.groupby('month')`). -/
def monthsOf (data : List Obs) : List Nat :=
  sort_by_key (fun m => m) ((data.map (fun o => o.timestamp.month)).dedup)

/-- Per-month mean of `bee_count` (`groupby('month')['bee_count'].mean()`);
`none` models the NaN mean of a month whose rows all lack the metric. -/
def monthlyMeanBee (data : List Obs) (m : Nat) : Option ℚ :=
  let vs := (data.filter (fun o => decide (o.timestamp.month = m))).filterMap
    (fun o => o.bee_count)
  if vs.isEmpty then none else some (qmean vs)

/-- The monthly-averages series, in ascending month order. -/
def monthly_averages (data : List Obs) : List (Nat × Option ℚ) :=
  (monthsOf data).map (fun m => (m, monthlyMeanBee data m))

/-- The non-NaN part of the monthly-averages series (what `idxmax`, `idxmin`,
`std` and `mean` actually see, since they skip NaN). -/
def presentAverages (data : List Obs) : List (Nat × ℚ) :=
  (monthly_averages data).filterMap (fun p => p.2.map (fun q => (p.1, q)))

/-- First index attaining the maximum value (`Series.idxmax`). -/
def argmaxFirst (l : List (Nat × ℚ)) : Nat :=
  match l with
  | [] => 0
  | x :: rest => (rest.foldl (fun best y => if best.2 < y.2 then y else best) x).1

/-- First index attaining the minimum value (`Series.idxmin`). -/
def argminFirst (l : List (Nat × ℚ)) : Nat :=
  match l with
  | [] => 0
  | x :: rest => (rest.foldl (fun best y => if y.2 < best.2 then y else best) x).1

/-- Exact stand-in for the float `monthly_averages.std() / monthly_averages.mean()`:
`none` models NaN (pandas sample std of fewer than two non-NaN monthly means);
otherwise the pair (sample variance, mean) of the monthly means, from which
the reported value `sqrt(var)/mean` is determined. -/
def seasonal_variation_of (means : List ℚ) : Option (ℚ × ℚ) :=
  if means.length ≤ 1 then none else some (qsampleVar means, qmean means)

structure SeasonalPattern where
  peak_month : Nat
  low_month : Nat
  seasonal_variation : Option (ℚ × ℚ)
  monthly_patterns : List (Nat × Option ℚ)
deriving DecidableEq

/-- Model of `_analyze_seasonal_pattern`: whenever the `bee_count` column
exists the monthly grouping is reported — peak, low, variation — regardless
of how many distinct months are present; the error dictionary is returned
only when the column is absent. -/
def analyze_seasonal_pattern (data : List Obs) : Except String SeasonalPattern :=
  if data.any (fun o => o.bee_count.isSome) then
    .ok { peak_month := argmaxFirst (presentAverages data),
          low_month := argminFirst (presentAverages data),
          seasonal_variation := seasonal_variation_of ((presentAverages data).map (fun p => p.2)),
          monthly_patterns := monthly_averages data }
  else .error "Insufficient data for seasonal analysis"

/-- Exact encoding of the float comparison `seasonal_variation > 0.5` on the
(variance, mean) pair: for `mean > 0`, `sqrt(var)/mean > 1/2` iff
`var > mean²/4`; for `mean = 0` the quotient is `inf` (true) unless
`var = 0` (nan, false); for `mean < 0` the quotient is ≤ 0, never above 1/2;
NaN (`none`) compares false. -/
def seasonal_variation_gt_half : Option (ℚ × ℚ) → Bool
  | none => false
  | some (v, m) =>
    if 0 < m then decide (m ^ 2 / 4 < v)
    else if m = 0 then decide (0 < v)
    else false

/-- Model of `_generate_trend_recommendations`: keyword outputs attached to a
decreasing / highly-variable activity trend, a below-optimal yield, and a
seasonal variation above 0.5. An errored sub-analysis contributes nothing
(its dictionary lacks the tested key). -/
def generate_trend_recommendations (a : Except String ActivityTrend)
    (p : Except String ProductivityTrend) (s : Except String SeasonalPattern) :
    List String :=
  (match a with
   | .ok a1 =>
       if a1.trend_direction = "decreasing" then
         ["Review recent changes in environment or management",
          "Check for potential stressors affecting foraging",
          "Consider supplementary feeding if needed"]
       else if a1.consistency = "highly_variable" then
         ["Investigate causes of variable activity levels"]
       else []
   | .error _ => []) ++
  (match p with
   | .ok p1 =>
       if p1.comparison_to_optimal = "below_optimal" then
         ["Review hive management practices",
          "Assess food source availability",
          "Consider colony strength assessment"]
       else []
   | .error _ => []) ++
  (match s with
   | .ok s1 =>
       if seasonal_variation_gt_half s1.seasonal_variation then
         ["Plan for seasonal variations in foraging conditions",
          "Prepare supplementary feeding for low activity periods",
          "Consider seasonal hive management adjustments"]
       else []
   | .error _ => [])

instance exceptDecEq {ε α : Type} [DecidableEq ε] [DecidableEq α] :
    DecidableEq (Except ε α) := fun x y =>
  match x, y with
  | .error a, .error b =>
      if h : a = b then isTrue (by rw [h]) else isFalse (by intro hh; cases hh; exact h rfl)
  | .error _, .ok _ => isFalse (by intro hh; cases hh)
  | .ok _, .error _ => isFalse (by intro hh; cases hh)
  | .ok a, .ok b =>
      if h : a = b then isTrue (by rw [h]) else isFalse (by intro hh; cases hh; exact h rfl)

structure TrendBundle where
  activity_trend : Except String ActivityTrend
  productivity_trend : Except String ProductivityTrend
  seasonal_pattern : Except String SeasonalPattern
  recommendations : List String
deriving DecidableEq

/-- Per-user stored observation series (the `data_points` dictionary). -/
abbrev TrendState := List (String × List Obs)

/-- Model of `add_data_point`: overwrite the `timestamp` key of the incoming
data dictionary with the current clock instant, append it to the user's
series, then filter the series to the last 365 days. -/
def add_data_point (st : TrendState) (user_id : String) (data : Obs) (now : DT) :
    TrendState :=
  let appended := ((alookup st user_id).getD []) ++ [{ data with timestamp := now }]
  aset st user_id (appended.filter (fun o => decide (now.t - 365 * dayS < o.timestamp.t)))

/-- Model of `analyze_trends`: the error dictionary for an unknown user or a
series shorter than `minimum_data_points = 5`, otherwise the bundle of the
three sub-analyses plus recommendations. -/
def analyze_trends (st : TrendState) (user_id : String) : Except String TrendBundle :=
  match alookup st user_id with
  | none => .error "No data available for analysis"
  | some data =>
      if data.length < 5 then .error "Insufficient data for trend analysis"
      else
        .ok { activity_trend := analyze_activity_trend data,
              productivity_trend := analyze_productivity_trend data,
              seasonal_pattern := analyze_seasonal_pattern data,
              recommendations := generate_trend_recommendations
                (analyze_activity_trend data) (analyze_productivity_trend data)
                (analyze_seasonal_pattern data) }

/-- Model of `_determine_overall_status`: signed indicators from the activity
direction and the yield comparison (an errored sub-analysis reads as `None`
through `.get`, landing in the `else 0` branch), averaged and bucketed at
0.3 / 0 / -0.3. -/
def determine_overall_status (trends : Except String TrendBundle) : String :=
  match trends with
  | .error _ => "unknown"
  | .ok b =>
      let i1 : Int := match b.activity_trend with
        | .ok a1 =>
            if a1.trend_direction = "increasing" then 1
            else if a1.trend_direction = "decreasing" then -1
            else 0
        | .error _ => 0
      let i2 : Int := match b.productivity_trend with
        | .ok p1 =>
            if p1.comparison_to_optimal = "above_optimal" then 1
            else if p1.comparison_to_optimal = "below_optimal" then -1
            else 0
        | .error _ => 0
      let avg : ℚ := ((i1 : ℚ) + (i2 : ℚ)) / 2
      if avg > 3/10 then "excellent"
      else if avg > 0 then "good"
      else if avg > -(3/10) then "fair"
      else "needs_attention"

/-- Model of `_generate_outlook`: the activity indicator is positive only for
direction "increasing"; the productivity indicator is positive whenever
`.get('trend_direction')` differs from "decreasing" — in particular an
errored productivity section (whose `.get` yields `None`) counts positive.
Both bundle keys always exist, so `total_indicators` is 2. -/
def generate_outlook (trends : Except String TrendBundle) : String :=
  match trends with
  | .error _ => "insufficient_data"
  | .ok b =>
      let act_pos : Bool := match b.activity_trend with
        | .ok a1 => a1.trend_direction = "increasing"
        | .error _ => false
      let prod_pos : Bool := match b.productivity_trend with
        | .ok p1 => decide (p1.trend_direction ≠ "decreasing")
        | .error _ => true
      let positive_indicators : Nat := (if act_pos then 1 else 0) + (if prod_pos then 1 else 0)
      let total_indicators : Nat := 2
      if total_indicators = 0 then "uncertain"
      else
        let outlook_score : ℚ := (positive_indicators : ℚ) / (total_indicators : ℚ)
        if outlook_score > 7/10 then "positive"
        else if outlook_score > 3/10 then "stable"
        else "cautious"

structure KeyMetrics where
  activity_level : Option ℚ
  activity_trend_dir : Option String
  productivity_level : Option ℚ
  productivity_status : Option String
deriving DecidableEq

/-- Model of `_extract_key_metrics`: `none` for the whole record when the
trends carry the top-level error (empty dictionary); inside a bundle the
`.get` reads of an errored sub-analysis give `None` fields. -/
def extract_key_metrics (trends : Except String TrendBundle) : Option KeyMetrics :=
  match trends with
  | .error _ => none
  | .ok b =>
      some { activity_level := match b.activity_trend with
               | .ok a1 => a1.average_activity
               | .error _ => none,
             activity_trend_dir := match b.activity_trend with
               | .ok a1 => some a1.trend_direction
               | .error _ => none,
             productivity_level := match b.productivity_trend with
               | .ok p1 => some p1.average_yield
               | .error _ => none,
             productivity_status := match b.productivity_trend with
               | .ok p1 => some p1.comparison_to_optimal
               | .error _ => none }

def urgent_keywords : List String := ["immediate", "critical", "urgent", "required"]

def important_keywords : List String := ["review", "consider", "assess", "monitor"]

/-- Model of `_prioritize_recommendations`: tag each recommendation urgent(0)
/ important(1) / normal(2) by keyword, stable-sort by the tag, keep the first
five. An errored trends value has no `recommendations` key, giving `[]`. -/
def prioritize_recommendations (trends : Except String TrendBundle) : List String :=
  match trends with
  | .error _ => []
  | .ok b =>
      let tagged := b.recommendations.map (fun r =>
        ((if containsAnyKw r urgent_keywords then (0 : Nat)
          else if containsAnyKw r important_keywords then 1 else 2), r))
      ((sort_by_key (fun x => x.1) tagged).map (fun x => x.2)).take 5

structure StatusSummary where
  current_status : String
  key_metrics : Option KeyMetrics
  short_term_outlook : String
  immediate_actions : List String
  timestamp : DT
deriving DecidableEq

/-- Model of `get_status_summary`. -/
def get_status_summary (st : TrendState) (user_id : String) (now : DT) : StatusSummary :=
  { current_status := determine_overall_status (analyze_trends st user_id),
    key_metrics := extract_key_metrics (analyze_trends st user_id),
    short_term_outlook := generate_outlook (analyze_trends st user_id),
    immediate_actions := prioritize_recommendations (analyze_trends st user_id),
    timestamp := now }

/-!
## BeekeepingReportGenerator — src/app/models/reporting_system.py

The report path modelled here is the call without media or environmental
payloads (both default to `None`, so `media_insights` and
`environmental_insights` are the empty dictionary and contribute empty
recommendation lists). The trend sections of the report are the
`trends.get(key, {})` reads: the bundle's sub-results when the analysis
succeeded, and the empty dictionary (`none`) when it returned its top-level
error.
-/

structure RecItem where
  recommendation : String
  priority : String
  category : String
deriving DecidableEq

/-- Priority inference of `_compile_recommendations`: the keyword groups are
scanned in dictionary order high, medium, low with a break on first match,
and the default is low. -/
def priority_of (rec : String) : String :=
  if containsAnyKw rec ["immediate", "critical", "urgent"] then "high"
  else if containsAnyKw rec ["important", "necessary", "should"] then "medium"
  else if containsAnyKw rec ["consider", "may", "could"] then "low"
  else "low"

/-- Model of `_categorize_recommendation`: first matching keyword group in
dictionary order, defaulting to general. -/
def categorize_recommendation (recommendation : String) : String :=
  if containsAnyKw recommendation ["forage", "food", "nectar", "pollen"] then "foraging"
  else if containsAnyKw recommendation ["disease", "pest", "health", "infection"] then "health"
  else if containsAnyKw recommendation ["hive", "maintenance", "clean", "inspect"] then "management"
  else if containsAnyKw recommendation ["weather", "temperature", "rain", "shade"] then "environment"
  else "general"

/-- Rank used by the final `sort` (`priority_order` dictionary). -/
def priorityRank : String → Nat
  | "high" => 0
  | "medium" => 1
  | _ => 2

/-- Model of `_compile_recommendations`: normalize every recommendation of
every input list into a tagged record, then stable-sort the concatenation by
priority rank. No de-duplication is performed. -/
def compile_recommendations (recommendation_lists : List (List String)) : List RecItem :=
  sort_by_key (fun r => priorityRank r.priority)
    (recommendation_lists.flatten.map (fun rec =>
      { recommendation := rec, priority := priority_of rec,
        category := categorize_recommendation rec }))

structure ReportSummary where
  status : String
  outlook : String
  key_findings : List String
  priority_actions : List String
deriving DecidableEq

structure Report where
  report_id : String
  generated_at : DT
  hive_status_current : String
  hive_status_key_metrics : Option KeyMetrics
  hive_status_outlook : String
  activity_trends : Option (Except String ActivityTrend)
  productivity_trends : Option (Except String ProductivityTrend)
  seasonal_patterns : Option (Except String SeasonalPattern)
  recommendations : List RecItem
  summary : ReportSummary
deriving DecidableEq

/-- Rendering of the clock instant inside the report id, standing in for
`datetime.now().strftime('%Y%m%d%H%M')` (a deterministic function of the
instant; the exact digit format is irrelevant to every claim). -/
def fmtYMDHM (d : DT) : String := toString d.t

/-- Model of `_extract_key_findings` for a report without environmental
analysis: the status line, plus the activity line when the activity section
is a successful (non-empty, non-error) dictionary whose `trend_direction`
is truthy. -/
def extract_key_findings (current : String)
    (act : Option (Except String ActivityTrend)) : List String :=
  ["Hive status is " ++ current] ++
  (match act with
   | some (.ok a1) => ["Activity is " ++ a1.trend_direction]
   | _ => [])

/-- Model of `generate_comprehensive_report` called without media or
environmental payloads: record the observation, run the trend analysis and
status summary on the updated state, compile the recommendations from the
four sources (the last two empty here), and assemble the report. Returns the
updated analyzer state together with the report. -/
def generate_comprehensive_report (st : TrendState) (user_id : String)
    (current_data : Obs) (now : DT) : TrendState × Report :=
  let st1 := add_data_point st user_id current_data now
  let trends := analyze_trends st1 user_id
  let status := get_status_summary st1 user_id now
  let recs := compile_recommendations
    [status.immediate_actions,
     (trends.toOption.map (fun b => b.recommendations)).getD [],
     [], []]
  (st1,
   { report_id := "BEE-" ++ user_id ++ "-" ++ fmtYMDHM now,
     generated_at := now,
     hive_status_current := status.current_status,
     hive_status_key_metrics := status.key_metrics,
     hive_status_outlook := status.short_term_outlook,
     activity_trends := trends.toOption.map (fun b => b.activity_trend),
     productivity_trends := trends.toOption.map (fun b => b.productivity_trend),
     seasonal_patterns := trends.toOption.map (fun b => b.seasonal_pattern),
     recommendations := recs,
     summary := { status := status.current_status,
                  outlook := status.short_term_outlook,
                  key_findings := extract_key_findings status.current_status
                    (trends.toOption.map (fun b => b.activity_trend)),
                  priority_actions :=
                    ((recs.filter (fun r => r.priority = "high")).map
                      (fun r => r.recommendation)).take 3 } })

/-!
## Claim theorems
-/

/-- Concrete observation on day `d` in month `m` with the two metrics. -/
def mkObs (d : Int) (m : Nat) (bc hy : ℚ) : Obs :=
  { timestamp := { t := d * dayS, month := m }, bee_count := some bc, honey_yield := some hy }

/-- Five observations on consecutive days of one calendar month with constant
metrics: enough data for `analyze_trends`, a single distinct month, and both
trend directions "stable". -/
def data5 : List Obs :=
  [mkObs 0 6 10 20, mkObs 1 6 10 20, mkObs 2 6 10 20, mkObs 3 6 10 20, mkObs 4 6 10 20]

/-- Analyzer state holding the five-observation series for user "u". -/
def trendState5 : TrendState := [("u", data5)]

/-- C2 counterexample: merging a list that repeats the same recommendation
text yields two entries with identical (hence identical lower-cased, trimmed)
text — `_compile_recommendations` performs no de-duplication. -/
theorem compile_recommendations_keeps_duplicates :
    compile_recommendations [["Check hive", "Check hive"]] =
      [{ recommendation := "Check hive", priority := "low", category := "management" },
       { recommendation := "Check hive", priority := "low", category := "management" }] ∧
    ¬ ((compile_recommendations [["Check hive", "Check hive"]]).map
        (fun r => lowerChars r.recommendation)).Nodup := by
  constructor
  · decide
  · decide

/-- C2 amended: the merged list keeps every input occurrence — one output
entry per input recommendation, duplicates included (the texts are permuted,
never dropped) — tagged with inferred priority and category and stably sorted
by priority rank high(0) < medium(1) < low(2). -/
theorem compile_recommendations_perm_and_sorted (recommendation_lists : List (List String)) :
    ((compile_recommendations recommendation_lists).map (fun r => r.recommendation)).Perm
      recommendation_lists.flatten ∧
    List.Pairwise (fun a b => priorityRank a.priority ≤ priorityRank b.priority)
      (compile_recommendations recommendation_lists) := by
  constructor
  · have hp := (sort_by_key_perm (fun r : RecItem => priorityRank r.priority)
      (recommendation_lists.flatten.map (fun rec =>
        { recommendation := rec, priority := priority_of rec,
          category := categorize_recommendation rec }))).map
      (fun r : RecItem => r.recommendation)
    have hid : (recommendation_lists.flatten.map (fun rec =>
        ({ recommendation := rec, priority := priority_of rec,
           category := categorize_recommendation rec } : RecItem))).map
        (fun r : RecItem => r.recommendation) = recommendation_lists.flatten := by
      rw [List.map_map]
      exact List.map_id recommendation_lists.flatten
    rw [hid] at hp
    exact hp
  · simp only [compile_recommendations]
    exact sort_by_key_sorted _ _

/-- C3: whenever a user has fewer than five retained observations,
`analyze_trends` returns one of its two no-data error dictionaries (the
spec's `InsufficientData` failure) and no partial trend bundle — an `error`
value carries no activity, productivity or seasonal section. -/
theorem analyze_trends_insufficient_always_fails (st : TrendState) (user_id : String)
    (h : ((alookup st user_id).getD []).length < 5) :
    analyze_trends st user_id = .error "No data available for analysis" ∨
    analyze_trends st user_id = .error "Insufficient data for trend analysis" := by
  cases hc : alookup st user_id with
  | none =>
      left
      simp [analyze_trends, hc]
  | some data =>
      right
      have hlen : data.length < 5 := by simpa [hc] using h
      simp [analyze_trends, hc, hlen]

/-- Witness for C3 at the empty analyzer state. -/
theorem analyze_trends_insufficient_always_fails_witness :
    analyze_trends [] "u" = .error "No data available for analysis" ∨
    analyze_trends [] "u" = .error "Insufficient data for trend analysis" :=
  analyze_trends_insufficient_always_fails [] "u" (by decide)

/-- C6: for a user whose series is still shorter than five observations after
the new data point is recorded, `generate_comprehensive_report` returns a
complete report rather than failing: the three trend sections are the empty
dictionary, the status is the degraded "unknown" / "insufficient_data" pair
with empty metrics, recommendations and priority actions, and the report id
is assembled as usual. -/
theorem report_insufficient_history_degrades (st : TrendState) (user_id : String)
    (current_data : Obs) (now : DT)
    (h : ((alookup (add_data_point st user_id current_data now) user_id).getD []).length < 5) :
    ((generate_comprehensive_report st user_id current_data now).2.activity_trends = none) ∧
    ((generate_comprehensive_report st user_id current_data now).2.productivity_trends = none) ∧
    ((generate_comprehensive_report st user_id current_data now).2.seasonal_patterns = none) ∧
    ((generate_comprehensive_report st user_id current_data now).2.hive_status_current = "unknown") ∧
    ((generate_comprehensive_report st user_id current_data now).2.hive_status_key_metrics = none) ∧
    ((generate_comprehensive_report st user_id current_data now).2.hive_status_outlook =
      "insufficient_data") ∧
    ((generate_comprehensive_report st user_id current_data now).2.recommendations = []) ∧
    ((generate_comprehensive_report st user_id current_data now).2.summary.priority_actions = []) ∧
    ((generate_comprehensive_report st user_id current_data now).2.summary.key_findings =
      ["Hive status is unknown"]) ∧
    ((generate_comprehensive_report st user_id current_data now).2.report_id =
      "BEE-" ++ user_id ++ "-" ++ fmtYMDHM now) := by
  obtain ⟨l, hl⟩ : ∃ l, alookup (add_data_point st user_id current_data now) user_id = some l :=
    ⟨_, alookup_aset_self st user_id _⟩
  have hlen : l.length < 5 := by simpa [hl] using h
  have herr : analyze_trends (add_data_point st user_id current_data now) user_id =
      .error "Insufficient data for trend analysis" := by
    simp [analyze_trends, hl, hlen]
  refine ⟨?_, ?_, ?_, ?_, ?_, ?_, ?_, ?_, ?_, ?_⟩ <;>
    simp [generate_comprehensive_report, get_status_summary, herr,
      determine_overall_status, extract_key_metrics, generate_outlook,
      prioritize_recommendations, compile_recommendations, sort_by_key,
      extract_key_findings, Except.toOption]

/-- Witness for C6: the first observation of a fresh user. -/
theorem report_insufficient_history_degrades_witness :
    ((generate_comprehensive_report [] "u" (mkObs 0 6 10 20)
        { t := 0, month := 6 }).2.activity_trends = none) ∧
    ((generate_comprehensive_report [] "u" (mkObs 0 6 10 20)
        { t := 0, month := 6 }).2.productivity_trends = none) ∧
    ((generate_comprehensive_report [] "u" (mkObs 0 6 10 20)
        { t := 0, month := 6 }).2.seasonal_patterns = none) ∧
    ((generate_comprehensive_report [] "u" (mkObs 0 6 10 20)
        { t := 0, month := 6 }).2.hive_status_current = "unknown") ∧
    ((generate_comprehensive_report [] "u" (mkObs 0 6 10 20)
        { t := 0, month := 6 }).2.hive_status_key_metrics = none) ∧
    ((generate_comprehensive_report [] "u" (mkObs 0 6 10 20)
        { t := 0, month := 6 }).2.hive_status_outlook = "insufficient_data") ∧
    ((generate_comprehensive_report [] "u" (mkObs 0 6 10 20)
        { t := 0, month := 6 }).2.recommendations = []) ∧
    ((generate_comprehensive_report [] "u" (mkObs 0 6 10 20)
        { t := 0, month := 6 }).2.summary.priority_actions = []) ∧
    ((generate_comprehensive_report [] "u" (mkObs 0 6 10 20)
        { t := 0, month := 6 }).2.summary.key_findings = ["Hive status is unknown"]) ∧
    ((generate_comprehensive_report [] "u" (mkObs 0 6 10 20)
        { t := 0, month := 6 }).2.report_id = "BEE-" ++ "u" ++ "-" ++
        fmtYMDHM { t := 0, month := 6 }) :=
  report_insufficient_history_degrades [] "u" (mkObs 0 6 10 20) { t := 0, month := 6 }
    (by decide)

theorem dedup_all_eq_single (l : List Nat) (m : Nat) (hne : l ≠ [])
    (hall : ∀ x ∈ l, x = m) : l.dedup = [m] := by
  induction l with
  | nil => cases hne rfl
  | cons x xs ih =>
      have hx : x = m := hall x (by simp)
      subst hx
      by_cases hxs : xs = []
      · subst hxs
        simp
      · have hmem : x ∈ xs := by
          obtain ⟨y, hy⟩ := List.exists_mem_of_ne_nil xs hxs
          have hym : y = x := hall y (by simp [hy])
          rw [← hym]
          exact hy
        rw [List.dedup_cons_of_mem hmem]
        exact ih hxs (fun z hz => hall z (by simp [hz]))

/-- C4 amended: the seasonal analysis fails only when no retained observation
carries the `bee_count` metric. A series whose observations all fall in one
calendar month `m` (with the metric present) is still reported: the result is
a success whose peak and low month are both `m` and whose seasonal variation
is the float NaN (pandas sample std of a single monthly mean), not the
`InsufficientSeasonalData` error the spec describes. -/
theorem seasonal_single_month_still_reports (data : List Obs) (m : Nat)
    (hbc : data.any (fun o => o.bee_count.isSome) = true)
    (hm : ∀ o ∈ data, o.timestamp.month = m) :
    ∃ sp, analyze_seasonal_pattern data = .ok sp ∧
      sp.peak_month = m ∧ sp.low_month = m ∧ sp.seasonal_variation = none := by
  obtain ⟨o, ho, hos⟩ := List.any_eq_true.mp hbc
  have hdne : data ≠ [] := List.ne_nil_of_mem ho
  have hmapall : ∀ x ∈ data.map (fun o => o.timestamp.month), x = m := by
    intro x hx
    obtain ⟨o2, ho2, rfl⟩ := List.mem_map.mp hx
    exact hm o2 ho2
  have hmapne : data.map (fun o => o.timestamp.month) ≠ [] := by
    simpa using hdne
  have hmonths : monthsOf data = [m] := by
    unfold monthsOf
    rw [dedup_all_eq_single _ m hmapne hmapall]
    simp [sort_by_key, insert_by_key]
  have hfl : data.filter (fun o => decide (o.timestamp.month = m)) = data :=
    List.filter_eq_self.mpr (fun o2 ho2 => by simp [hm o2 ho2])
  obtain ⟨q0, hq0⟩ := Option.isSome_iff_exists.mp hos
  have hvmem : q0 ∈ data.filterMap (fun o => o.bee_count) :=
    List.mem_filterMap.mpr ⟨o, ho, hq0⟩
  have hvne : data.filterMap (fun o => o.bee_count) ≠ [] := List.ne_nil_of_mem hvmem
  have hvempty : (data.filterMap (fun o => o.bee_count)).isEmpty = false := by
    cases hv : data.filterMap (fun o => o.bee_count) with
    | nil => exact absurd hv hvne
    | cons a tl => rfl
  have hmean : monthlyMeanBee data m = some (qmean (data.filterMap (fun o => o.bee_count))) := by
    simp only [monthlyMeanBee, hfl, hvempty]
    simp
  have hpa : presentAverages data = [(m, qmean (data.filterMap (fun o => o.bee_count)))] := by
    simp [presentAverages, monthly_averages, hmonths, hmean]
  refine ⟨{ peak_month := m, low_month := m, seasonal_variation := none,
            monthly_patterns := monthly_averages data }, ?_, rfl, rfl, rfl⟩
  simp [analyze_seasonal_pattern, hbc, hpa, argmaxFirst, argminFirst, seasonal_variation_of]

/-- Witness for the C4 amended theorem at the concrete single-month series. -/
theorem seasonal_single_month_still_reports_witness :
    ∃ sp, analyze_seasonal_pattern data5 = .ok sp ∧
      sp.peak_month = 6 ∧ sp.low_month = 6 ∧ sp.seasonal_variation = none :=
  seasonal_single_month_still_reports data5 6 (by decide) (by decide)

/-- C4 counterexample: a five-observation series confined to month 6 with the
`bee_count` metric present — `_analyze_seasonal_pattern` does not fail with
the insufficient-seasonal-data error; it reports month 6 as both peak and low
month (with NaN variation). -/
theorem seasonal_single_month_no_error_cx :
    (data5.map (fun o => o.timestamp.month)).dedup = [6] ∧
    analyze_seasonal_pattern data5 =
      .ok { peak_month := 6, low_month := 6, seasonal_variation := none,
            monthly_patterns := [(6, some 10)] } := by
  constructor
  · decide
  · norm_num [analyze_seasonal_pattern, presentAverages, monthly_averages, monthsOf,
      monthlyMeanBee, argmaxFirst, argminFirst, seasonal_variation_of, qmean,
      data5, mkObs, sort_by_key, insert_by_key, List.filter, List.filterMap, List.dedup]
    exact fun h => Option.noConfusion h

/-- The activity trend of the constant five-day series. -/
def data5_activity : ActivityTrend :=
  { average_activity := some 10, activity_change := FloatVal.val 0,
    trend_direction := "stable", consistency := "very_consistent" }

/-- The productivity trend of the constant five-day series. -/
def data5_productivity : ProductivityTrend :=
  { average_yield := 20, yield_change := FloatVal.val 0,
    trend_direction := "stable", comparison_to_optimal := "optimal" }

/-- The seasonal pattern of the constant five-day series. -/
def data5_seasonal : SeasonalPattern :=
  { peak_month := 6, low_month := 6, seasonal_variation := none,
    monthly_patterns := [(6, some 10)] }

/-- The full trend bundle of the constant five-day series. -/
def data5_bundle : TrendBundle :=
  { activity_trend := .ok data5_activity, productivity_trend := .ok data5_productivity,
    seasonal_pattern := .ok data5_seasonal, recommendations := [] }

theorem data5_activity_eval : analyze_activity_trend data5 = .ok data5_activity := by
  norm_num [analyze_activity_trend, data5, data5_activity, mkObs, dayS, fdiv,
    get_trend_direction, calculate_consistency, qmean, qsampleVar, List.filter,
    List.filterMap]

theorem data5_productivity_eval :
    analyze_productivity_trend data5 = .ok data5_productivity := by
  norm_num [analyze_productivity_trend, data5, data5_productivity, mkObs, fdiv,
    get_trend_direction, compare_to_optimal, optimal_range_modern_hive, qmean,
    List.filterMap]

theorem data5_seasonal_eval : analyze_seasonal_pattern data5 = .ok data5_seasonal := by
  norm_num [analyze_seasonal_pattern, presentAverages, monthly_averages, monthsOf,
    monthlyMeanBee, argmaxFirst, argminFirst, seasonal_variation_of, qmean,
    data5, data5_seasonal, mkObs, sort_by_key, insert_by_key, List.filter,
    List.filterMap, List.dedup]
  exact fun h => Option.noConfusion h

theorem data5_bundle_eval : analyze_trends trendState5 "u" = .ok data5_bundle := by
  have hlen : ¬ (data5.length < 5) := by decide
  simp [analyze_trends, trendState5, alookup, hlen, data5_activity_eval,
    data5_productivity_eval, data5_seasonal_eval, generate_trend_recommendations,
    seasonal_variation_gt_half, data5_bundle, data5_activity, data5_productivity,
    data5_seasonal]

/-- C5 counterexample: the five-observation user has activity direction
"stable" and productivity direction "stable"; the claim's reading makes the
non-negative fraction 1.0 and the outlook "positive", but `_generate_outlook`
counts a stable activity direction as not positive, giving score 1/2 and
outlook "stable". -/
theorem outlook_stable_directions_not_positive_cx :
    analyze_trends trendState5 "u" = .ok data5_bundle ∧
    data5_bundle.activity_trend = .ok data5_activity ∧
    data5_activity.trend_direction = "stable" ∧
    data5_bundle.productivity_trend = .ok data5_productivity ∧
    data5_productivity.trend_direction = "stable" ∧
    (get_status_summary trendState5 "u" { t := 5 * dayS, month := 6 }).short_term_outlook
      = "stable" ∧
    ¬ ((get_status_summary trendState5 "u" { t := 5 * dayS, month := 6 }).short_term_outlook
      = "positive") := by
  refine ⟨data5_bundle_eval, rfl, rfl, rfl, rfl, ?_, ?_⟩ <;>
    · simp only [get_status_summary, data5_bundle_eval]
      simp [generate_outlook, data5_bundle, data5_activity, data5_productivity]
      try norm_num
      try decide

/-- Spec-side outlook score (C5 amended): the fraction of positive trend
indicators, where the activity indicator is positive only for direction
"increasing" and the productivity indicator is positive whenever its
direction differs from "decreasing" (an errored productivity section, whose
`.get` read is `None`, also counts positive). -/
def outlook_score_spec (b : TrendBundle) : ℚ :=
  ((if (b.activity_trend.toOption.map (fun a => a.trend_direction)) = some "increasing"
      then (1 : ℚ) else 0) +
   (if (b.productivity_trend.toOption.map (fun p => p.trend_direction)) ≠ some "decreasing"
      then (1 : ℚ) else 0)) / 2

/-- C5 amended: on every successful trend bundle, the outlook equals the
spec-style fraction of positive indicators — activity counting only
"increasing", productivity counting everything but "decreasing" — bucketed
strictly above 0.7 / 0.3 into positive / stable / cautious. In particular a
stable/stable user scores 1/2 and gets outlook "stable", not "positive". -/
theorem generate_outlook_eq_spec_bucket (b : TrendBundle) :
    generate_outlook (.ok b) =
      (if outlook_score_spec b > 7/10 then "positive"
       else if outlook_score_spec b > 3/10 then "stable"
       else "cautious") := by
  obtain ⟨ba, bp, bs, br⟩ := b
  cases ba with
  | error e =>
      cases bp with
      | error f =>
          simp [generate_outlook, outlook_score_spec, Except.toOption]
      | ok p1 =>
          by_cases hd : p1.trend_direction = "decreasing" <;>
            simp [generate_outlook, outlook_score_spec, Except.toOption, hd]
  | ok a1 =>
      cases bp with
      | error f =>
          by_cases hi : a1.trend_direction = "increasing" <;>
            simp [generate_outlook, outlook_score_spec, Except.toOption, hi]
      | ok p1 =>
          by_cases hi : a1.trend_direction = "increasing" <;>
            by_cases hd : p1.trend_direction = "decreasing" <;>
              simp [generate_outlook, outlook_score_spec, Except.toOption, hi, hd]

/-- C9: `add_data_point` stores the caller's record with its `timestamp`
field overwritten by the current clock instant — whatever timestamp the
caller supplied — as the last element of the user's retained series; and
under a monotone clock (every retained timestamp at most `now`, series so far
in order) the retained series stays in arrival order. The source mutates and
stores the caller's dictionary itself; observably, the stored last element
equals the input record with only `timestamp` replaced. -/
theorem add_data_point_overwrites_timestamp_keeps_order (st : TrendState)
    (user_id : String) (data : Obs) (now : DT)
    (hbound : ∀ o ∈ (alookup st user_id).getD [], o.timestamp.t ≤ now.t)
    (hsorted : List.Pairwise (fun a b : Obs => a.timestamp.t ≤ b.timestamp.t)
      ((alookup st user_id).getD [])) :
    ((alookup (add_data_point st user_id data now) user_id).getD []).getLast? =
      some { data with timestamp := now } ∧
    List.Pairwise (fun a b : Obs => a.timestamp.t ≤ b.timestamp.t)
      ((alookup (add_data_point st user_id data now) user_id).getD []) := by
  have hl : alookup (add_data_point st user_id data now) user_id =
      some ((((alookup st user_id).getD []) ++ [{ data with timestamp := now }]).filter
        (fun o => decide (now.t - 365 * dayS < o.timestamp.t))) :=
    alookup_aset_self st user_id _
  rw [hl]
  have hkeep : ([{ data with timestamp := now }].filter
      (fun o => decide (now.t - 365 * dayS < o.timestamp.t))) =
      [{ data with timestamp := now }] := by
    have hlt : now.t - 365 * dayS < now.t := by
      unfold dayS
      omega
    simp [List.filter, hlt]
  constructor
  · rw [Option.getD_some, List.filter_append, hkeep, List.getLast?_concat]
  · rw [Option.getD_some]
    apply List.Pairwise.filter
    rw [List.pairwise_append]
    refine ⟨hsorted, by simp, ?_⟩
    intro a ha b hb
    have hbnew : b = { data with timestamp := now } := by simpa using hb
    rw [hbnew]
    exact hbound a ha

/-- Witness for C9: appending a record whose caller-supplied timestamp is day
0 to the sorted five-day series at clock instant day 10. -/
theorem add_data_point_overwrites_timestamp_keeps_order_witness :
    ((alookup (add_data_point trendState5 "u" (mkObs 0 6 7 7) { t := 10 * dayS, month := 6 })
        "u").getD []).getLast? =
      some { mkObs 0 6 7 7 with timestamp := { t := 10 * dayS, month := 6 } } ∧
    List.Pairwise (fun a b : Obs => a.timestamp.t ≤ b.timestamp.t)
      ((alookup (add_data_point trendState5 "u" (mkObs 0 6 7 7)
        { t := 10 * dayS, month := 6 }) "u").getD []) :=
  add_data_point_overwrites_timestamp_keeps_order trendState5 "u" (mkObs 0 6 7 7)
    { t := 10 * dayS, month := 6 } (by decide) (by decide)
